import Mathlib

/-!
Shallow embedding of the per-account live-session engine of
`XianyuAutoAsync.py` (class `XianyuLive`): the auto-delivery pipeline with its
cooldown ledgers, the reply selector, the token-health notification throttle,
the inbound-frame ack discipline, order-id extraction and the api-card retry
loop.  Pure functions of the source become Lean functions; the collaborators
that are not part of the sources (the database manager, the remote HTTP
endpoints, the AI engine) enter as explicit parameters holding their results.
Times are natural-number epoch seconds.
-/

namespace Xianyu

/-! ## Python-style string helpers -/

/-- Bool-valued substring search: does `needle` occur contiguously in the list? -/
def listContains (needle : List Char) : List Char → Bool
  | [] => needle.isEmpty
  | c :: rest => needle.isPrefixOf (c :: rest) || listContains needle rest

/-- Python `needle in haystack` on strings: substring containment. -/
def pyContains (needle haystack : String) : Bool :=
  listContains needle.toList haystack.toList

/-- Python `needle.lower() in haystack.lower()` (ASCII lowering, as
`Char.toLower` does). -/
def lowerContains (needle haystack : String) : Bool :=
  listContains (needle.toList.map Char.toLower) (haystack.toList.map Char.toLower)

/-- Python truthiness of an optional string: `None` and `""` are falsy. -/
def truthy : Option String → Bool
  | none => false
  | some s => !(s == "")

/-! ## Message-context interpolation (`str.format` on reply templates)

Reply templates are interpolated with the named fields `send_user_id`,
`send_user_name`, `send_message`; a template holding any other placeholder
makes Python's `str.format` raise, which the embedding renders as `none`. -/

/-- One piece of a reply template: literal text, one of the three supported
named fields, or a placeholder `str.format` cannot resolve. -/
inductive TemplateItem where
  | lit (s : String)
  | userIdField
  | userNameField
  | messageField
  | badField
deriving Repr, DecidableEq

/-- A reply template: its raw source string together with its parsed pieces. -/
structure Template where
  raw : String
  items : List TemplateItem
deriving Repr, DecidableEq

/-- The three interpolation fields available to every reply template. -/
structure MsgCtx where
  send_user_id : String
  send_user_name : String
  send_message : String
deriving Repr, DecidableEq

/-- Render the parsed pieces; fails (like `str.format` raising) as soon as an
unresolvable placeholder is met. -/
def renderItems (ctx : MsgCtx) : List TemplateItem → Option String
  | [] => some ""
  | TemplateItem.lit s :: rest => (renderItems ctx rest).map (fun r => s ++ r)
  | TemplateItem.userIdField :: rest =>
      (renderItems ctx rest).map (fun r => ctx.send_user_id ++ r)
  | TemplateItem.userNameField :: rest =>
      (renderItems ctx rest).map (fun r => ctx.send_user_name ++ r)
  | TemplateItem.messageField :: rest =>
      (renderItems ctx rest).map (fun r => ctx.send_message ++ r)
  | TemplateItem.badField :: _ => none

/-- Python `template.format(send_user_id=..., send_user_name=..., send_message=...)`,
`none` when `format` raises. -/
def pyFormat (ctx : MsgCtx) (t : Template) : Option String :=
  renderItems ctx t.items

/-- The `try: ... .format(...) except: return raw` idiom of `get_keyword_reply`
and `get_default_reply`: failed interpolation degrades to the raw template. -/
def formatOrRaw (ctx : MsgCtx) (t : Template) : String :=
  (pyFormat ctx t).getD t.raw

/-! ## Cooldown constants (`XianyuLive.__init__`) -/

/-- `self.delivery_cooldown = 600` (seconds). -/
def delivery_cooldown : Nat := 600

/-- `self.order_confirm_cooldown = 600` (seconds). -/
def order_confirm_cooldown : Nat := 600

/-- `self.notification_cooldown = 300` (seconds). -/
def notice_cooldown : Nat := 300

/-! ## Session cooldown ledgers -/

/-- The per-session in-memory ledgers `last_delivery_time` and
`confirmed_orders`, keyed by order id (newest binding first). -/
structure SessionLedgers where
  last_delivery_time : List (String × Nat)
  confirmed_orders : List (String × Nat)
deriving Repr, DecidableEq

/-- `XianyuLive.is_auto_confirm_enabled`: read the account's auto-confirm
setting from the store; on a raised exception return `True` (enabled). -/
def is_auto_confirm_enabled (store_result : Except Unit Bool) : Bool :=
  match store_result with
  | Except.ok b => b
  | Except.error _ => true

/-- `XianyuLive.can_auto_delivery`: without an order id no cooldown check is
made; otherwise abort when the last delivery for this order id is younger
than `delivery_cooldown`. -/
def can_auto_delivery (st : SessionLedgers) (now : Nat) (order_id : Option String) : Bool :=
  if !truthy order_id then
    true
  else
    let last := (st.last_delivery_time.lookup (order_id.getD "")).getD 0
    if now - last < delivery_cooldown then false else true

/-- `XianyuLive.mark_delivery_sent`: record the delivery time for the order id,
or do nothing when no order id is present. -/
def mark_delivery_sent (st : SessionLedgers) (now : Nat) (order_id : Option String) :
    SessionLedgers :=
  if truthy order_id then
    { st with last_delivery_time := (order_id.getD "", now) :: st.last_delivery_time }
  else st

/-! ## The delivery pipeline (`_auto_delivery` / `_handle_auto_delivery`)

The database rule query, the auto-confirm store read, the confirm-ship HTTP
call and the card-content production are collaborators outside the session
engine; one `DeliveryEnv` records their results for a single trigger event. -/

/-- Collaborator results consumed by one `_auto_delivery` run. -/
structure DeliveryEnv where
  /-- the store's rule query returned at least one delivery rule -/
  rule_matched : Bool
  /-- `rule.card_delay_seconds` of the selected rule -/
  rule_delay_seconds : Nat
  /-- result of the store read behind `is_auto_confirm_enabled` -/
  auto_confirm_setting : Except Unit Bool
  /-- the `auto_confirm` HTTP call reports success -/
  confirm_succeeds : Bool
  /-- card content produced for the selected rule (`None` on failure) -/
  content : Option String
deriving Repr

/-- Observable effects of one `_auto_delivery` run. -/
structure DeliveryOutcome where
  rule_matched : Bool
  delay_slept : Bool
  confirm_invoked : Bool
  confirm_recorded : Bool
  incremented : Bool
  content : Option String
deriving Repr, DecidableEq

/-- The `should_confirm` test of `_auto_delivery`: confirm unless the
`confirmed_orders` ledger holds a confirmation for this order younger than
`order_confirm_cooldown`. -/
def should_confirm_order (st : SessionLedgers) (now : Nat) (oid : String) : Bool :=
  match st.confirmed_orders.lookup oid with
  | some t => !(now - t < order_confirm_cooldown)
  | none => true

/-- The ship-confirmation block of `_auto_delivery`: only with a (truthy)
order id and the setting enabled; skipped when `should_confirm_order` says
so; a successful confirmation (and only a successful one) is recorded in the
ledger.  Returns the new ledgers, whether `auto_confirm` was invoked, and
whether a success was recorded. -/
def confirm_phase (st : SessionLedgers) (now : Nat) (order_id : Option String)
    (env : DeliveryEnv) : SessionLedgers × Bool × Bool :=
  if truthy order_id then
    if !is_auto_confirm_enabled env.auto_confirm_setting then (st, false, false)
    else
      let oid := order_id.getD ""
      if should_confirm_order st now oid then
        if env.confirm_succeeds then
          ({ st with confirmed_orders := (oid, now) :: st.confirmed_orders }, true, true)
        else (st, true, false)
      else (st, false, false)
  else (st, false, false)

/-- `XianyuLive._auto_delivery`: match a rule, sleep the configured delay,
confirm shipment (guarded by the setting and the `confirmed_orders` ledger,
only with an order id), then produce the delivery content (only with an
order id); `increment_delivery_times` runs only when content is produced. -/
def auto_delivery (st : SessionLedgers) (now : Nat) (order_id : Option String)
    (env : DeliveryEnv) : SessionLedgers × DeliveryOutcome :=
  if !env.rule_matched then
    (st, ⟨false, false, false, false, false, none⟩)
  else
    let delay_slept := decide (0 < env.rule_delay_seconds)
    let confirm_step := confirm_phase st now order_id env
    let st₁ := confirm_step.1
    let invoked := confirm_step.2.1
    let recorded := confirm_step.2.2
    if truthy order_id then
      match env.content with
      | some c =>
          if c == "" then (st₁, ⟨true, delay_slept, invoked, recorded, false, none⟩)
          else (st₁, ⟨true, delay_slept, invoked, recorded, true, some c⟩)
      | none => (st₁, ⟨true, delay_slept, invoked, recorded, false, none⟩)
    else
      (st₁, ⟨true, delay_slept, invoked, recorded, false, none⟩)

/-- Observable effects of one `_handle_auto_delivery` run. -/
structure HandleOutcome where
  aborted_by_cooldown : Bool
  outcome : Option DeliveryOutcome
  sent : Option String
deriving Repr, DecidableEq

/-- `true` when the run recorded a successful ship confirmation. -/
def HandleOutcome.confirmRecorded (h : HandleOutcome) : Bool :=
  match h.outcome with
  | some o => o.confirm_recorded
  | none => false

/-- `true` when the run invoked the confirm-ship call. -/
def HandleOutcome.confirmInvoked (h : HandleOutcome) : Bool :=
  match h.outcome with
  | some o => o.confirm_invoked
  | none => false

/-- `XianyuLive._handle_auto_delivery` after order-id extraction: the cooldown
gate `can_auto_delivery`, then `_auto_delivery`; when content came back it is
marked in the ledger (`mark_delivery_sent`) and sent to the buyer. -/
def handle_auto_delivery (st : SessionLedgers) (now : Nat) (order_id : Option String)
    (env : DeliveryEnv) : SessionLedgers × HandleOutcome :=
  if !can_auto_delivery st now order_id then
    (st, ⟨true, none, none⟩)
  else
    let step := auto_delivery st now order_id env
    match step.2.content with
    | some c => (mark_delivery_sent step.1 now order_id, ⟨false, some step.2, some c⟩)
    | none => (step.1, ⟨false, some step.2, none⟩)

/-- Two auto-delivery trigger events for the same order, handled in sequence
by the same session: the observable outcome of each. -/
def two_events (st : SessionLedgers) (t₁ t₂ : Nat) (order_id : Option String)
    (env₁ env₂ : DeliveryEnv) : HandleOutcome × HandleOutcome :=
  let first := handle_auto_delivery st t₁ order_id env₁
  let second := handle_auto_delivery first.1 t₂ order_id env₂
  (first.2, second.2)

/-! ## Token-health notification throttle
(`_is_normal_token_expiry`, `send_token_refresh_notification`) -/

/-- The `no_notification_keywords` list of `_is_normal_token_expiry`, verbatim. -/
def no_notify_keywords : List String :=
  ["FAIL_SYS_TOKEN_EXOIRED::令牌过期",
   "FAIL_SYS_TOKEN_EXPIRED::令牌过期",
   "FAIL_SYS_TOKEN_EXOIRED",
   "FAIL_SYS_TOKEN_EXPIRED",
   "令牌过期",
   "FAIL_SYS_SESSION_EXPIRED::Session过期",
   "FAIL_SYS_SESSION_EXPIRED",
   "Session过期",
   "Token定时刷新失败，将自动重试",
   "Token定时刷新失败"]

/-- `XianyuLive._is_normal_token_expiry`: the error message contains (Python
`in`) one of the `no_notification_keywords`. -/
def is_normal_token_expiry (error_message : String) : Bool :=
  no_notify_keywords.any (fun k => pyContains k error_message)

/-- Modelled from the spec: the glossary's "Benign expiry markers (exact
literal subset)", used only to compare the spec's enumerated set against the
source's suppression predicate. -/
def specBenignExpiryMarkers : List String :=
  ["FAIL_SYS_TOKEN_EXOIRED::令牌过期",
   "FAIL_SYS_TOKEN_EXPIRED::令牌过期",
   "FAIL_SYS_SESSION_EXPIRED::Session过期",
   "令牌过期",
   "Session过期",
   "Token定时刷新失败，将自动重试"]

/-- One configured notification channel, as the channel loop of
`send_token_refresh_notification` sees it: its `enabled` flag, whether its
`channel_type` is one of the supported cases, and whether dispatching to it
raised no exception. -/
structure NotifChannel where
  enabled : Bool
  supported : Bool
  dispatch_ok : Bool
deriving Repr, DecidableEq

/-- `XianyuLive.send_token_refresh_notification` (state: the
`last_notification_time` ledger): benign expiries are dropped first, then the
5-minute per-kind cooldown, then the configured channels are tried; the ledger
advances only when some channel was actually dispatched.  Returns the new
ledger and whether a notification went out. -/
def send_token_refresh_notice (ledger : List (String × Nat)) (now : Nat)
    (error_message : String) (ntype : String) (channels : List NotifChannel) :
    List (String × Nat) × Bool :=
  if is_normal_token_expiry error_message then (ledger, false)
  else
    let last := (ledger.lookup ntype).getD 0
    if now - last < notice_cooldown then (ledger, false)
    else if channels.isEmpty then (ledger, false)
    else
      let sent := channels.any (fun c => c.enabled && c.supported && c.dispatch_ok)
      if sent then ((ntype, now) :: ledger, true) else (ledger, false)

/-- A session's sequence of token-refresh errors, fed one by one (with their
times) through `send_token_refresh_notice`; returns the final ledger and the
per-event emission flags. -/
def run_token_refresh_notices (ledger : List (String × Nat)) (channels : List NotifChannel) :
    List (Nat × String) → List (String × Nat) × List Bool
  | [] => (ledger, [])
  | (t, e) :: rest =>
      let step := send_token_refresh_notice ledger t e "token_refresh" channels
      let next := run_token_refresh_notices step.1 channels rest
      (next.1, step.2 :: next.2)

/-! ## Reply selector (`get_keyword_reply`, `get_ai_reply`,
`get_default_reply`, `get_api_reply` and the fallback chain of
`handle_message`) -/

/-- A keyword rule row as returned by the store:
`(keyword, reply, item_id)`. -/
structure KeywordRule where
  keyword : String
  reply : Template
  item_id : Option String
deriving Repr, DecidableEq

/-- Loop 1 of `get_keyword_reply`: the rule is scoped to exactly this item id
and its keyword occurs case-insensitively in the message. -/
def scoped_rule_matches (item_id : Option String) (msg : String) (r : KeywordRule) : Bool :=
  r.item_id == item_id && lowerContains r.keyword msg

/-- Loop 2 of `get_keyword_reply`: the rule carries no item id (Python-falsy)
and its keyword occurs case-insensitively in the message. -/
def global_rule_matches (msg : String) (r : KeywordRule) : Bool :=
  !truthy r.item_id && lowerContains r.keyword msg

/-- `XianyuLive.get_keyword_reply`: with a (truthy) item id first the rules
scoped to it, in list order; then the item-less rules, in list order; the
matched rule's template is interpolated, degrading to the raw template. -/
def get_keyword_reply (keywords : List KeywordRule) (ctx : MsgCtx)
    (item_id : Option String) : Option String :=
  let scopedHit :=
    if truthy item_id then
      (keywords.find? (scoped_rule_matches item_id ctx.send_message)).map
        (fun r => formatOrRaw ctx r.reply)
    else none
  match scopedHit with
  | some r => some r
  | none =>
      (keywords.find? (global_rule_matches ctx.send_message)).map
        (fun r => formatOrRaw ctx r.reply)

/-- `XianyuLive.get_ai_reply`: `none` when AI is disabled for the account;
otherwise the engine's output, with Python-falsy outputs dropped. -/
def get_ai_reply (ai_enabled : Bool) (ai_result : Option String) : Option String :=
  if !ai_enabled then none
  else
    match ai_result with
    | some r => if r == "" then none else some r
    | none => none

/-- The account's default-reply settings row. -/
structure DefaultReplySettings where
  enabled : Bool
  reply_content : Template
deriving Repr, DecidableEq

/-- `XianyuLive.get_default_reply`: requires stored settings with the feature
enabled and a non-empty template; interpolation degrades to the raw template. -/
def get_default_reply (settings : Option DefaultReplySettings) (ctx : MsgCtx) :
    Option String :=
  match settings with
  | none => none
  | some s =>
      if !s.enabled then none
      else if s.reply_content.raw == "" then none
      else some (formatOrRaw ctx s.reply_content)

/-- A response of the external reply API: its `code` and, when present, the
`data.send_msg` template. -/
structure ApiReplyResponse where
  code : Nat
  send_msg : Option Template
deriving Repr, DecidableEq

/-- `XianyuLive.get_api_reply`: `none` on network failure or timeout; on a
`code=200` response with a truthy `send_msg`, interpolate it — the whole body
sits in one `try`, so a failing interpolation is swallowed and yields `none`
rather than the raw template. -/
def get_api_reply (response : Option ApiReplyResponse) (ctx : MsgCtx) : Option String :=
  match response with
  | none => none
  | some r =>
      if r.code == 200 then
        match r.send_msg with
        | some tpl =>
            if tpl.raw == "" then none
            else pyFormat ctx tpl
        | none => none
      else none

/-- Where the selected reply came from. -/
inductive ReplySource where
  | api
  | keyword
  | ai
  | defaultReply
deriving Repr, DecidableEq

/-- The fallback chain at the end of `handle_message`: the external API's
reply when it produced one, else keyword matching, else AI, else the default
reply, else nothing. -/
def choose_reply (api_reply : Option String) (keywords : List KeywordRule)
    (ai_enabled : Bool) (ai_result : Option String)
    (settings : Option DefaultReplySettings) (ctx : MsgCtx)
    (item_id : Option String) : Option (String × ReplySource) :=
  match api_reply with
  | some r => some (r, ReplySource.api)
  | none =>
      match get_keyword_reply keywords ctx item_id with
      | some r => some (r, ReplySource.keyword)
      | none =>
          match get_ai_reply ai_enabled ai_result with
          | some r => some (r, ReplySource.ai)
          | none =>
              match get_default_reply settings ctx with
              | some r => some (r, ReplySource.defaultReply)
              | none => none

/-! ## Delivery-rule matching in `_auto_delivery`

The store queries `get_delivery_rules_by_keyword_and_spec` and
`get_delivery_rules_by_keyword` live in the database manager, which is not
among the sources; they are modelled from the spec's contract. -/

/-- A delivery rule row joined with its card, as `_auto_delivery` reads it. -/
structure DeliveryRule where
  id : Nat
  keyword : String
  is_multi_spec : Bool
  spec_name : String
  spec_value : String
deriving Repr, DecidableEq

/-- Longest-keyword-first order on delivery rules, ties by `id` ascending. -/
def ruleOrder (a b : DeliveryRule) : Prop :=
  b.keyword.length < a.keyword.length ∨
    (a.keyword.length = b.keyword.length ∧ a.id ≤ b.id)

instance : DecidableRel ruleOrder := fun a b => by
  unfold ruleOrder; infer_instance

instance : IsTotal DeliveryRule ruleOrder :=
  ⟨fun a b => by unfold ruleOrder; omega⟩

instance : IsTrans DeliveryRule ruleOrder :=
  ⟨fun a b c hab hbc => by unfold ruleOrder at *; omega⟩

/-- Modelled from the spec: `db_manager.get_delivery_rules_by_keyword_and_spec`
is not among the sources; per the spec it returns the multi-spec rules whose
`keyword` is a substring of the search text and whose `(spec_name, spec_value)`
equal the order's specs, sorted longest-keyword-first, ties by `id` ascending. -/
def get_delivery_rules_by_keyword_and_spec (db : List DeliveryRule)
    (search_text spec_name spec_value : String) : List DeliveryRule :=
  List.insertionSort ruleOrder
    (db.filter fun r =>
      pyContains r.keyword search_text && r.is_multi_spec &&
        r.spec_name == spec_name && r.spec_value == spec_value)

/-- Modelled from the spec: `db_manager.get_delivery_rules_by_keyword` is not
among the sources; per the spec it returns the rules whose `keyword` is a
substring of the search text, sorted longest-keyword-first, ties by `id`
ascending. -/
def get_delivery_rules_by_keyword (db : List DeliveryRule)
    (search_text : String) : List DeliveryRule :=
  List.insertionSort ruleOrder
    (db.filter fun r => pyContains r.keyword search_text)

/-- The rule-selection block of `_auto_delivery`: when both spec fields are
truthy, first the spec-exact multi-spec query; only when it returns nothing
(or no spec was obtained) the generic keyword query; the first rule of the
resulting list is used. `spec_name`/`spec_value` are `""` when no order spec
was obtainable. -/
def select_delivery_rule (db : List DeliveryRule) (search_text : String)
    (spec_name spec_value : String) : Option DeliveryRule :=
  let tier1 :=
    if !(spec_name == "") && !(spec_value == "") then
      get_delivery_rules_by_keyword_and_spec db search_text spec_name spec_value
    else []
  let rules :=
    if tier1.isEmpty then get_delivery_rules_by_keyword db search_text
    else tier1
  rules.head?

/-! ## Inbound frame handling: ack first (`handle_message`) -/

/-- The headers of an inbound WebSocket frame, each field absent or present. -/
structure FrameHeaders where
  mid : Option String
  sid : Option String
  app_key : Option String
  ua : Option String
  dt : Option String
deriving Repr, DecidableEq

/-- The ack frame `handle_message` sends back. -/
structure AckFrame where
  code : Nat
  mid : String
  sid : String
  app_key : Option String
  ua : Option String
  dt : Option String
deriving Repr, DecidableEq

/-- The ack construction at the top of `handle_message`: `code=200`, the
frame's `mid` (or a freshly generated one), the frame's `sid` (or `""`), and
`app-key`/`ua`/`dt` copied exactly when present. -/
def build_ack (h : FrameHeaders) (generated_mid : String) : AckFrame :=
  { code := 200
    mid := h.mid.getD generated_mid
    sid := h.sid.getD ""
    app_key := h.app_key
    ua := h.ua
    dt := h.dt }

/-- What the decrypted payload of a frame turns out to be. -/
inductive FramePayload where
  /-- not a `syncPushPackage` frame -/
  | notSync
  /-- a sync package without a `data` field -/
  | syncNoData
  /-- base64 decodes to plain JSON: a system prompt, logged only -/
  | syncPlainSystem
  /-- neither plain JSON nor decryptable: the frame is dropped -/
  | syncUndecryptable
  /-- decrypts to a chat message; `is_delivery_trigger` marks the
  paid-awaiting-shipment sentinels -/
  | syncChat (ctx : MsgCtx) (item_id : Option String) (is_delivery_trigger : Bool)
deriving Repr, DecidableEq

/-- One observable engine action while a frame is handled, in order. -/
inductive EngineAction where
  /-- the ack send attempt; `delivered` is false when `websocket.send` raised -/
  | sendAck (a : AckFrame) (delivered : Bool)
  | decryptPayload
  | classify
  /-- the delivery pipeline runs (it mutates the cooldown ledgers) -/
  | mutateState
  | sendReply (s : String)
deriving Repr, DecidableEq

/-- `XianyuLive.handle_message` as the ordered list of its observable actions:
nothing at all for a disabled account; otherwise the ack attempt first (send
failures ignored), then — only for sync packages — decryption, classification
and either the delivery pipeline or the reply chain. -/
def handle_message_trace (account_enabled : Bool) (ack_send_fails : Bool)
    (h : FrameHeaders) (p : FramePayload) (generated_mid : String)
    (api_reply : Option String) (keywords : List KeywordRule)
    (ai_enabled : Bool) (ai_result : Option String)
    (settings : Option DefaultReplySettings) : List EngineAction :=
  if !account_enabled then []
  else
    let ack := build_ack h generated_mid
    let tail :=
      match p with
      | FramePayload.notSync => []
      | FramePayload.syncNoData => []
      | FramePayload.syncPlainSystem => [EngineAction.decryptPayload, EngineAction.classify]
      | FramePayload.syncUndecryptable => [EngineAction.decryptPayload]
      | FramePayload.syncChat ctx item_id is_trigger =>
          [EngineAction.decryptPayload, EngineAction.classify] ++
            (if is_trigger then [EngineAction.mutateState]
             else
               match choose_reply api_reply keywords ai_enabled ai_result settings ctx item_id with
               | some r => [EngineAction.mutateState, EngineAction.sendReply r.1]
               | none => [])
    EngineAction.sendAck ack (!ack_send_fails) :: tail

/-- `XianyuLive.handle_heartbeat_response`: a frame whose top-level `code`
equals 200 is consumed as a heartbeat ack (updating
`last_heartbeat_response`); any other frame is not consumed. -/
def handle_heartbeat_response (top_code : Option Nat) : Bool :=
  top_code == some 200

/-- The receive loop of `XianyuLive.main`: every inbound frame is first
offered to `handle_heartbeat_response`; a consumed heartbeat-ack frame is
classified and mutates the heartbeat ledger — and the loop `continue`s, so no
ack is ever sent for it; every other frame goes to `handle_message`. -/
def receive_loop_trace (account_enabled : Bool) (ack_send_fails : Bool)
    (top_code : Option Nat) (h : FrameHeaders) (p : FramePayload)
    (generated_mid : String) (api_reply : Option String)
    (keywords : List KeywordRule) (ai_enabled : Bool)
    (ai_result : Option String) (settings : Option DefaultReplySettings) :
    List EngineAction :=
  if handle_heartbeat_response top_code then
    [EngineAction.classify, EngineAction.mutateState]
  else
    handle_message_trace account_enabled ack_send_fails h p generated_mid
      api_reply keywords ai_enabled ai_result settings

/-! ## Order-id extraction (`_extract_order_id`) -/

/-- The three `targetUrl` fields `_extract_order_id` reads out of the embedded
card JSON; `""` stands for an absent field (the `.get(..., '')` chains). -/
structure CardContent where
  /-- `dxCard.item.main.exContent.button.targetUrl` -/
  button_target_url : String
  /-- `dxCard.item.main.targetUrl` -/
  main_target_url : String
  /-- `dynamicOperation.changeContent.dxCard.item.main.exContent.button.targetUrl` -/
  dynamic_button_target_url : String
deriving Repr, DecidableEq

/-- Python `re.search(pat ++ "(\d+)", s)`: scan left to right for the first
position where the literal pattern is followed by at least one digit, and
return that maximal digit run. -/
def re_search_num_after (pat : List Char) : List Char → Option String
  | [] => none
  | c :: rest =>
      if pat.isPrefixOf (c :: rest) then
        let ds := ((c :: rest).drop pat.length).takeWhile Char.isDigit
        if ds.isEmpty then re_search_num_after pat rest
        else some (String.mk ds)
      else re_search_num_after pat rest

/-- `XianyuLive._extract_order_id`: `none` when the embedded card JSON is
absent or malformed; otherwise the first success among `orderId=` in the
button `targetUrl`, `order_detail?id=` in the main `targetUrl`, and
`order_detail?id=` in the `dynamicOperation.changeContent` button `targetUrl`. -/
def extract_order_id (content_json : Option CardContent) : Option String :=
  match content_json with
  | none => none
  | some c =>
      let m1a :=
        if !(c.button_target_url == "") then
          re_search_num_after "orderId=".toList c.button_target_url.toList
        else none
      let m1b :=
        if !(c.main_target_url == "") then
          re_search_num_after "order_detail?id=".toList c.main_target_url.toList
        else none
      let m2 :=
        if !(c.dynamic_button_target_url == "") then
          re_search_num_after "order_detail?id=".toList c.dynamic_button_target_url.toList
        else none
      match m1a with
      | some v => some v
      | none =>
          match m1b with
          | some v => some v
          | none => m2

/-! ## Api-card content with retries (`_get_api_card_content`) -/

/-- The body of an HTTP response as the extraction code distinguishes it:
a JSON object (with its possibly-missing `data`/`content`/`card` fields,
`""` standing for missing or falsy, and its `str(...)` rendering), some other
JSON value (with its `str(...)` rendering), or unparseable text. -/
inductive RespBody where
  | obj (data content card rendering : String)
  | nonObjJson (rendering : String)
  | notJson (text : String)
deriving Repr, DecidableEq

/-- One attempt's outcome at the HTTP layer: a network error
(`aiohttp.ClientError`/timeout) or a response with its status and body. -/
inductive ApiAttempt where
  | netError
  | resp (status : Nat) (body : RespBody)
deriving Repr, DecidableEq

/-- An attempt outcome that is not a 200 response. -/
def ApiAttempt.failing : ApiAttempt → Bool
  | ApiAttempt.netError => true
  | ApiAttempt.resp status _ => !(status == 200)

/-- The 200-branch of `_get_api_card_content`: `data` or `content` or `card`
of a JSON object (Python `or`, so falsy fields fall through, and a bare
object degrades to `str(result)`); other JSON degrades to `str(result)`;
unparseable bodies are used as text. -/
def extract_card_content : RespBody → String
  | RespBody.obj d c card rendering =>
      if !(d == "") then d
      else if !(c == "") then c
      else if !(card == "") then card
      else rendering
  | RespBody.nonObjJson rendering => rendering
  | RespBody.notJson text => text

/-- `max_retries = 4` of `_get_api_card_content`. -/
def api_card_max_retries : Nat := 4

/-- `XianyuLive._get_api_card_content` over the stream of attempt outcomes the
environment will hand back: returns the extracted content (or `none`) together
with the backoff waits slept before each retry.  A retry happens only on a
network error or a 5xx/408 status, and only while `retry_count <
max_retries - 1`; statuses other than 200/5xx/408 fail immediately. -/
def get_api_card_content : Nat → List ApiAttempt → Option String × List Nat
  | _, [] => (none, [])
  | retry_count, a :: rest =>
      if api_card_max_retries ≤ retry_count then (none, [])
      else
        match a with
        | ApiAttempt.netError =>
            if retry_count < api_card_max_retries - 1 then
              let w := (retry_count + 1) * 2
              let next := get_api_card_content (retry_count + 1) rest
              (next.1, w :: next.2)
            else (none, [])
        | ApiAttempt.resp status body =>
            if status == 200 then (some (extract_card_content body), [])
            else if (500 ≤ status || status == 408) &&
                retry_count < api_card_max_retries - 1 then
              let w := (retry_count + 1) * 2
              let next := get_api_card_content (retry_count + 1) rest
              (next.1, w :: next.2)
            else (none, [])

/-! ## Lemmas about the delivery pipeline's ledgers -/

theorem confirm_phase_last_delivery (st : SessionLedgers) (now : Nat)
    (order_id : Option String) (env : DeliveryEnv) :
    (confirm_phase st now order_id env).1.last_delivery_time = st.last_delivery_time := by
  unfold confirm_phase
  dsimp only
  repeat' split
  all_goals rfl

theorem confirm_phase_recorded (st : SessionLedgers) (now : Nat) (oid : String)
    (env : DeliveryEnv) (h : (confirm_phase st now (some oid) env).2.2 = true) :
    (confirm_phase st now (some oid) env).1.confirmed_orders =
      (oid, now) :: st.confirmed_orders := by
  unfold confirm_phase at h ⊢
  by_cases h1 : truthy (some oid) = true
  · rw [if_pos h1] at h ⊢
    by_cases h2 : (!is_auto_confirm_enabled env.auto_confirm_setting) = true
    · rw [if_pos h2] at h; simp at h
    · rw [if_neg h2] at h ⊢
      simp only [Option.getD_some] at h ⊢
      by_cases h3 : should_confirm_order st now oid = true
      · rw [if_pos h3] at h ⊢
        by_cases h4 : env.confirm_succeeds = true
        · rw [if_pos h4]
        · rw [if_neg h4] at h; simp at h
      · rw [if_neg h3] at h; simp at h
  · rw [if_neg h1] at h; simp at h

theorem should_confirm_false (st : SessionLedgers) (t₁ t₂ : Nat) (oid : String)
    (hl : st.confirmed_orders.lookup oid = some t₁)
    (ht : t₂ - t₁ < order_confirm_cooldown) :
    should_confirm_order st t₂ oid = false := by
  unfold should_confirm_order
  simp [hl, ht]

theorem confirm_phase_skip (st : SessionLedgers) (t₁ t₂ : Nat) (oid : String)
    (env : DeliveryEnv) (hl : st.confirmed_orders.lookup oid = some t₁)
    (ht : t₂ - t₁ < order_confirm_cooldown) :
    (confirm_phase st t₂ (some oid) env).2.2 = false ∧
      (confirm_phase st t₂ (some oid) env).2.1 = false := by
  unfold confirm_phase
  have hs := should_confirm_false st t₁ t₂ oid hl ht
  by_cases h1 : truthy (some oid) = true
  · rw [if_pos h1]
    by_cases h2 : (!is_auto_confirm_enabled env.auto_confirm_setting) = true
    · rw [if_pos h2]; exact ⟨rfl, rfl⟩
    · rw [if_neg h2]
      simp [hs]
  · rw [if_neg h1]; exact ⟨rfl, rfl⟩

theorem auto_delivery_state (st : SessionLedgers) (now : Nat)
    (order_id : Option String) (env : DeliveryEnv) :
    (auto_delivery st now order_id env).1 =
      if env.rule_matched = true then (confirm_phase st now order_id env).1 else st := by
  unfold auto_delivery
  cases hr : env.rule_matched
  · simp [hr]
  · simp only [hr, Bool.not_true, Bool.false_eq_true, if_false, if_true]
    by_cases ht : truthy order_id = true
    · rw [if_pos ht]
      rcases env.content with _ | c
      · rfl
      · dsimp only
        by_cases hcc : (c == "") = true
        · rw [if_pos hcc]
        · rw [if_neg hcc]
    · rw [if_neg ht]

theorem auto_delivery_recorded (st : SessionLedgers) (now : Nat)
    (order_id : Option String) (env : DeliveryEnv) :
    (auto_delivery st now order_id env).2.confirm_recorded =
      (env.rule_matched && (confirm_phase st now order_id env).2.2) := by
  unfold auto_delivery
  cases hr : env.rule_matched
  · simp [hr]
  · simp only [hr, Bool.not_true, Bool.false_eq_true, if_false, if_true, Bool.true_and]
    by_cases ht : truthy order_id = true
    · rw [if_pos ht]
      rcases env.content with _ | c
      · rfl
      · dsimp only
        by_cases hcc : (c == "") = true
        · rw [if_pos hcc]
        · rw [if_neg hcc]
    · rw [if_neg ht]

theorem mark_delivery_sent_confirmed (st : SessionLedgers) (now : Nat)
    (order_id : Option String) :
    (mark_delivery_sent st now order_id).confirmed_orders = st.confirmed_orders := by
  unfold mark_delivery_sent
  split <;> rfl

theorem handle_aborted (st : SessionLedgers) (t : Nat) (order_id : Option String)
    (env : DeliveryEnv) (h : can_auto_delivery st t order_id = false) :
    handle_auto_delivery st t order_id env = (st, ⟨true, none, none⟩) := by
  unfold handle_auto_delivery
  simp [h]

theorem can_auto_false (st : SessionLedgers) (t₁ t₂ : Nat) (oid : String)
    (hoid : oid ≠ "") (hl : st.last_delivery_time.lookup oid = some t₁)
    (ht : t₂ - t₁ < delivery_cooldown) :
    can_auto_delivery st t₂ (some oid) = false := by
  unfold can_auto_delivery truthy
  simp [hoid, hl, ht]

theorem handle_confirmRecorded (st : SessionLedgers) (t : Nat)
    (order_id : Option String) (env : DeliveryEnv) :
    (handle_auto_delivery st t order_id env).2.confirmRecorded =
      (can_auto_delivery st t order_id &&
        (auto_delivery st t order_id env).2.confirm_recorded) := by
  unfold handle_auto_delivery
  cases hc : can_auto_delivery st t order_id
  · simp [HandleOutcome.confirmRecorded]
  · simp only [Bool.not_true, Bool.false_eq_true, if_false, Bool.true_and]
    cases hcont : (auto_delivery st t order_id env).2.content <;>
      simp [HandleOutcome.confirmRecorded, hcont]

theorem handle_sent_state (st : SessionLedgers) (t : Nat) (oid : String)
    (env : DeliveryEnv) (hoid : oid ≠ "")
    (h : (handle_auto_delivery st t (some oid) env).2.sent.isSome = true) :
    (handle_auto_delivery st t (some oid) env).1.last_delivery_time.lookup oid
      = some t := by
  unfold handle_auto_delivery at h ⊢
  by_cases hc : (!can_auto_delivery st t (some oid)) = true
  · rw [if_pos hc] at h; simp at h
  · rw [if_neg hc] at h ⊢
    dsimp only at h ⊢
    cases hcont : (auto_delivery st t (some oid) env).2.content
    · rw [hcont] at h; simp at h
    · simp [mark_delivery_sent, truthy, hoid, List.lookup]

theorem handle_recorded_state (st : SessionLedgers) (t : Nat) (oid : String)
    (env : DeliveryEnv)
    (h : (handle_auto_delivery st t (some oid) env).2.confirmRecorded = true) :
    (handle_auto_delivery st t (some oid) env).1.confirmed_orders.lookup oid
      = some t := by
  rw [handle_confirmRecorded] at h
  have hrec := (Bool.and_eq_true _ _).mp h
  rw [auto_delivery_recorded] at hrec
  have hrec2 := (Bool.and_eq_true _ _).mp hrec.2
  have hconf := confirm_phase_recorded st t oid env hrec2.2
  unfold handle_auto_delivery
  simp only [hrec.1, Bool.not_true, Bool.false_eq_true, if_neg, ite_false]
  split <;>
    simp_all [mark_delivery_sent_confirmed, auto_delivery_state, hrec2.1, hconf]

/-! ## Claim C1 -/

/-- C1 as stated is false on the code: when the first event's confirm call
fails and its content production fails, nothing is recorded in either ledger,
so a second trigger 60 s later is not aborted by the cooldown and invokes the
confirm-ship call a second time. -/
theorem C1_counterexample :
    ((two_events ⟨[], []⟩ 10000 10060 (some "555")
        ⟨true, 0, Except.ok true, false, none⟩
        ⟨true, 0, Except.ok true, false, none⟩).1.confirmInvoked = true) ∧
    ((two_events ⟨[], []⟩ 10000 10060 (some "555")
        ⟨true, 0, Except.ok true, false, none⟩
        ⟨true, 0, Except.ok true, false, none⟩).2.confirmInvoked = true) ∧
    ((two_events ⟨[], []⟩ 10000 10060 (some "555")
        ⟨true, 0, Except.ok true, false, none⟩
        ⟨true, 0, Except.ok true, false, none⟩).2.aborted_by_cooldown = false) := by
  decide

/-- C1 (amended): two auto-delivery trigger events for the same order id
processed less than 10 minutes apart produce at most one outbound delivery
message and at most one recorded (successful) ship confirmation; and whenever
the first event did send a delivery message, the second event is aborted by
the cooldown ledger before any send. -/
theorem C1_cooldown_idempotent (st : SessionLedgers) (t₁ t₂ : Nat) (oid : String)
    (env₁ env₂ : DeliveryEnv) (hoid : oid ≠ "")
    (ht : t₂ - t₁ < delivery_cooldown) :
    (¬((two_events st t₁ t₂ (some oid) env₁ env₂).1.sent.isSome = true ∧
       (two_events st t₁ t₂ (some oid) env₁ env₂).2.sent.isSome = true)) ∧
    (¬((two_events st t₁ t₂ (some oid) env₁ env₂).1.confirmRecorded = true ∧
       (two_events st t₁ t₂ (some oid) env₁ env₂).2.confirmRecorded = true)) ∧
    ((two_events st t₁ t₂ (some oid) env₁ env₂).1.sent.isSome = true →
      (two_events st t₁ t₂ (some oid) env₁ env₂).2 = ⟨true, none, none⟩) := by
  have habort : (handle_auto_delivery st t₁ (some oid) env₁).2.sent.isSome = true →
      handle_auto_delivery (handle_auto_delivery st t₁ (some oid) env₁).1 t₂
        (some oid) env₂ =
        ((handle_auto_delivery st t₁ (some oid) env₁).1, ⟨true, none, none⟩) := by
    intro hs
    exact handle_aborted _ t₂ (some oid) env₂
      (can_auto_false _ t₁ t₂ oid hoid (handle_sent_state st t₁ oid env₁ hoid hs) ht)
  refine ⟨?_, ?_, ?_⟩
  · rintro ⟨h₁, h₂⟩
    unfold two_events at h₁ h₂
    simp only at h₁ h₂
    rw [habort h₁] at h₂
    simp at h₂
  · rintro ⟨h₁, h₂⟩
    unfold two_events at h₁ h₂
    simp only at h₁ h₂
    have hlk := handle_recorded_state st t₁ oid env₁ h₁
    rw [handle_confirmRecorded] at h₂
    have h₂' := (Bool.and_eq_true _ _).mp h₂
    rw [auto_delivery_recorded] at h₂'
    have h₂'' := (Bool.and_eq_true _ _).mp h₂'.2
    have := (confirm_phase_skip _ t₁ t₂ oid env₂ hlk ht).1
    rw [this] at h₂''
    exact absurd h₂''.2 (by simp)
  · intro hs
    unfold two_events at hs ⊢
    simp only at hs ⊢
    rw [habort hs]

/-- Closed instance of `C1_cooldown_idempotent` at a concrete two-event run. -/
theorem C1_witness :
    (¬((two_events ⟨[], []⟩ 20000 20100 (some "777")
          ⟨true, 0, Except.ok true, true, some "KEY-XYZ"⟩
          ⟨true, 0, Except.ok true, true, some "KEY-XYZ"⟩).1.sent.isSome = true ∧
       (two_events ⟨[], []⟩ 20000 20100 (some "777")
          ⟨true, 0, Except.ok true, true, some "KEY-XYZ"⟩
          ⟨true, 0, Except.ok true, true, some "KEY-XYZ"⟩).2.sent.isSome = true)) ∧
    (¬((two_events ⟨[], []⟩ 20000 20100 (some "777")
          ⟨true, 0, Except.ok true, true, some "KEY-XYZ"⟩
          ⟨true, 0, Except.ok true, true, some "KEY-XYZ"⟩).1.confirmRecorded = true ∧
       (two_events ⟨[], []⟩ 20000 20100 (some "777")
          ⟨true, 0, Except.ok true, true, some "KEY-XYZ"⟩
          ⟨true, 0, Except.ok true, true, some "KEY-XYZ"⟩).2.confirmRecorded = true)) ∧
    ((two_events ⟨[], []⟩ 20000 20100 (some "777")
          ⟨true, 0, Except.ok true, true, some "KEY-XYZ"⟩
          ⟨true, 0, Except.ok true, true, some "KEY-XYZ"⟩).1.sent.isSome = true →
      (two_events ⟨[], []⟩ 20000 20100 (some "777")
          ⟨true, 0, Except.ok true, true, some "KEY-XYZ"⟩
          ⟨true, 0, Except.ok true, true, some "KEY-XYZ"⟩).2 = ⟨true, none, none⟩) :=
  C1_cooldown_idempotent ⟨[], []⟩ 20000 20100 "777"
    ⟨true, 0, Except.ok true, true, some "KEY-XYZ"⟩
    ⟨true, 0, Except.ok true, true, some "KEY-XYZ"⟩ (by decide) (by decide)

/-! ## Claim C5 -/

/-- C5: a delivery-pipeline run without an extracted order id never invokes
ship confirmation, produces and sends no content, increments no delivery
counter and leaves the ledgers unchanged, while rule matching still reports
the store's answer and the rule's configured delay still runs exactly when a
rule matched. -/
theorem C5_no_order_id_no_delivery (st : SessionLedgers) (now : Nat)
    (env : DeliveryEnv) :
    (handle_auto_delivery st now none env).1 = st ∧
    (handle_auto_delivery st now none env).2.aborted_by_cooldown = false ∧
    (handle_auto_delivery st now none env).2.sent = none ∧
    (handle_auto_delivery st now none env).2.outcome =
      some { rule_matched := env.rule_matched,
             delay_slept := env.rule_matched && decide (0 < env.rule_delay_seconds),
             confirm_invoked := false,
             confirm_recorded := false,
             incremented := false,
             content := none } := by
  unfold handle_auto_delivery auto_delivery confirm_phase can_auto_delivery truthy
  cases hr : env.rule_matched <;> simp [hr]

/-! ## Claim C10 -/

/-- C10: when the store lookup of the auto-confirm setting raises,
`is_auto_confirm_enabled` returns `true`, and a delivery run behaves exactly
as if the setting had been read as enabled. -/
theorem C10_error_defaults_enabled :
    (∀ e : Unit, is_auto_confirm_enabled (Except.error e) = true) ∧
    ∀ (st : SessionLedgers) (now : Nat) (order_id : Option String)
      (env : DeliveryEnv),
      auto_delivery st now order_id
          { env with auto_confirm_setting := Except.error () } =
        auto_delivery st now order_id
          { env with auto_confirm_setting := Except.ok true } := by
  refine ⟨fun e => rfl, fun st now order_id env => ?_⟩
  unfold auto_delivery confirm_phase is_auto_confirm_enabled
  rfl

/-! ## Claim C4 -/

/-- C4 as stated is false on the code: the error text
`"FAIL_SYS_TOKEN_EXPIRED"` is not one of the spec's literally enumerated
benign-expiry markers (neither equal to one nor containing one), yet
`_is_normal_token_expiry` accepts it and the notification path drops it. -/
theorem C4_counterexample :
    is_normal_token_expiry "FAIL_SYS_TOKEN_EXPIRED" = true ∧
    send_token_refresh_notice [] 10000 "FAIL_SYS_TOKEN_EXPIRED" "token_refresh"
        [⟨true, true, true⟩] = ([], false) ∧
    specBenignExpiryMarkers.all
        (fun m => !(m == "FAIL_SYS_TOKEN_EXPIRED")) = true ∧
    specBenignExpiryMarkers.all
        (fun m => !(pyContains m "FAIL_SYS_TOKEN_EXPIRED")) = true := by
  decide

/-- C4 (amended): a token-health notification is suppressed exactly when the
error message contains one of the ten markers of the source's
`no_notification_keywords` list (the glossary's six plus the bare
`FAIL_SYS_TOKEN_EXOIRED`, `FAIL_SYS_TOKEN_EXPIRED`, `FAIL_SYS_SESSION_EXPIRED`
and `Token定时刷新失败`, matched by substring containment); every other error
text reaches the notification stage, gated only by the 5-minute per-kind
cooldown and the presence of an enabled, dispatchable channel; and a session
experiencing exclusively benign expiries emits no token-health notifications. -/
theorem C4_benign_suppression (ledger : List (String × Nat)) (now : Nat)
    (e ty : String) (channels : List NotifChannel)
    (events : List (Nat × String))
    (hbenign : ∀ p ∈ events, is_normal_token_expiry p.2 = true) :
    (is_normal_token_expiry e = true →
      send_token_refresh_notice ledger now e ty channels = (ledger, false)) ∧
    ((send_token_refresh_notice ledger now e ty channels).2 = true →
      is_normal_token_expiry e = false ∧
        notice_cooldown ≤ now - ((ledger.lookup ty).getD 0)) ∧
    (is_normal_token_expiry e = false →
      notice_cooldown ≤ now - ((ledger.lookup ty).getD 0) →
      (∃ c ∈ channels, c.enabled = true ∧ c.supported = true ∧
        c.dispatch_ok = true) →
      (send_token_refresh_notice ledger now e ty channels).2 = true) ∧
    (run_token_refresh_notices ledger channels events =
      (ledger, events.map fun _ => false)) := by
  refine ⟨?_, ?_, ?_, ?_⟩
  · intro hb
    unfold send_token_refresh_notice
    simp [hb]
  · intro hsent
    unfold send_token_refresh_notice at hsent
    by_cases hb : is_normal_token_expiry e = true
    · simp [hb] at hsent
    · refine ⟨by simpa using hb, ?_⟩
      by_cases hcd : now - ((ledger.lookup ty).getD 0) < notice_cooldown
      · simp [hb, hcd] at hsent
      · omega
  · intro hb hcd ⟨c, hc, hce, hcs, hcd'⟩
    unfold send_token_refresh_notice
    have hne : channels.isEmpty = false := by
      cases channels with
      | nil => cases hc
      | cons a l => rfl
    have hany : channels.any (fun c => c.enabled && c.supported && c.dispatch_ok)
        = true :=
      List.any_eq_true.mpr ⟨c, hc, by simp [hce, hcs, hcd']⟩
    have hncd : ¬(now - ((ledger.lookup ty).getD 0) < notice_cooldown) := by omega
    simp [hb, hncd, hne, hany]
  · induction events generalizing ledger with
    | nil => rfl
    | cons p rest ih =>
        have hb := hbenign p (List.mem_cons_self p rest)
        unfold run_token_refresh_notices
        rw [show send_token_refresh_notice ledger p.1 p.2 "token_refresh" channels
            = (ledger, false) by unfold send_token_refresh_notice; simp [hb]]
        have := ih ledger (fun q hq => hbenign q (List.mem_cons_of_mem p hq))
        simp [this]

/-- Closed instance of `C4_benign_suppression`: one benign expiry, one
foreign error, and a benign-only event stream. -/
theorem C4_witness :
    ((is_normal_token_expiry "令牌过期" = true →
      send_token_refresh_notice [] 10000 "令牌过期" "token_refresh"
        [⟨true, true, true⟩] = ([], false)) ∧
    ((send_token_refresh_notice [] 10000 "令牌过期" "token_refresh"
        [⟨true, true, true⟩]).2 = true →
      is_normal_token_expiry "令牌过期" = false ∧
        notice_cooldown ≤ 10000 - ((([] : List (String × Nat)).lookup "token_refresh").getD 0)) ∧
    (is_normal_token_expiry "令牌过期" = false →
      notice_cooldown ≤ 10000 - ((([] : List (String × Nat)).lookup "token_refresh").getD 0) →
      (∃ c ∈ [(⟨true, true, true⟩ : NotifChannel)], c.enabled = true ∧
        c.supported = true ∧ c.dispatch_ok = true) →
      (send_token_refresh_notice [] 10000 "令牌过期" "token_refresh"
        [⟨true, true, true⟩]).2 = true) ∧
    (run_token_refresh_notices [] [⟨true, true, true⟩]
        [(100, "令牌过期"), (200, "Session过期")] =
      ([], [(100, "令牌过期"), (200, "Session过期")].map fun _ => false))) :=
  C4_benign_suppression [] 10000 "令牌过期" "token_refresh" [⟨true, true, true⟩]
    [(100, "令牌过期"), (200, "Session过期")] (by decide)

/-! ## Claim C7 -/

theorem re_search_num_after_digits (pat : List Char) :
    ∀ (s : List Char) (v : String), re_search_num_after pat s = some v →
      v ≠ "" ∧ v.toList.all Char.isDigit = true := by
  intro s
  induction s with
  | nil => intro v h; simp [re_search_num_after] at h
  | cons c rest ih =>
      intro v h
      unfold re_search_num_after at h
      by_cases hp : pat.isPrefixOf (c :: rest) = true
      · rw [if_pos hp] at h
        by_cases hds : (((c :: rest).drop pat.length).takeWhile Char.isDigit).isEmpty
            = true
        · rw [if_pos hds] at h
          exact ih v h
        · rw [if_neg hds] at h
          cases h
          constructor
          · intro hv
            have hd : ((c :: rest).drop pat.length).takeWhile Char.isDigit = [] := by
              have := congrArg String.data hv
              simpa using this
            rw [hd] at hds
            exact hds rfl
          · exact List.all_eq_true.mpr fun a ha => List.mem_takeWhile_imp ha
      · rw [if_neg hp] at h
        exact ih v h

theorem guard_search (pat : List Char) (u : String) :
    (if !(u == "") then re_search_num_after pat u.toList else none)
      = re_search_num_after pat u.toList := by
  by_cases hu : (u == "") = true
  · rw [if_neg (by simp [hu]), eq_of_beq hu]
    rfl
  · rw [if_pos (by simp [hu])]

theorem extract_order_id_some (c : CardContent) :
    extract_order_id (some c) =
      match re_search_num_after "orderId=".toList c.button_target_url.toList with
      | some v => some v
      | none =>
          match re_search_num_after "order_detail?id=".toList
              c.main_target_url.toList with
          | some v => some v
          | none =>
              re_search_num_after "order_detail?id=".toList
                c.dynamic_button_target_url.toList := by
  unfold extract_order_id
  dsimp only
  rw [guard_search, guard_search, guard_search]

/-- C7: order-id extraction returns the first success among the three URL
shapes, in order — `orderId=` in the button `targetUrl`, `order_detail?id=`
in the main `targetUrl`, `order_detail?id=` in the
`dynamicOperation.changeContent` button `targetUrl` — returns nothing when
the embedded JSON is absent or malformed or none matches, and every extracted
id is a non-empty digit string. -/
theorem C7_order_id_extraction :
    extract_order_id none = none ∧
    (∀ (c : CardContent) (v : String),
      re_search_num_after "orderId=".toList c.button_target_url.toList = some v →
      extract_order_id (some c) = some v) ∧
    (∀ (c : CardContent) (v : String),
      re_search_num_after "orderId=".toList c.button_target_url.toList = none →
      re_search_num_after "order_detail?id=".toList c.main_target_url.toList
        = some v →
      extract_order_id (some c) = some v) ∧
    (∀ c : CardContent,
      re_search_num_after "orderId=".toList c.button_target_url.toList = none →
      re_search_num_after "order_detail?id=".toList c.main_target_url.toList
        = none →
      extract_order_id (some c) =
        re_search_num_after "order_detail?id=".toList
          c.dynamic_button_target_url.toList) ∧
    (∀ (pat s : List Char) (v : String), re_search_num_after pat s = some v →
      v ≠ "" ∧ v.toList.all Char.isDigit = true) := by
  refine ⟨rfl, ?_, ?_, ?_, fun pat s v h => re_search_num_after_digits pat s v h⟩
  · intro c v h
    rw [extract_order_id_some, h]
  · intro c v h1 h2
    rw [extract_order_id_some, h1, h2]
  · intro c h1 h2
    rw [extract_order_id_some, h1, h2]

/-- Closed instance of `C7_order_id_extraction`: the button `targetUrl` wins
and yields the digits after `orderId=`. -/
theorem C7_witness :
    extract_order_id
        (some ⟨"https://m.goofish.com/x?orderId=5550123&f=1", "", ""⟩)
      = some "5550123" :=
  C7_order_id_extraction.2.1
    ⟨"https://m.goofish.com/x?orderId=5550123&f=1", "", ""⟩ "5550123" (by decide)

/-! ## Claim C9 -/

/-- C9 as stated is false on the code: with five consecutive 500 responses
available, the call retries only three times (backoffs 2 s, 4 s, 6 s), never a
fourth time with an 8 s backoff — `retry_count < max_retries - 1` stops the
recursion after the fourth attempt. -/
theorem C9_counterexample :
    get_api_card_content 0
        (List.replicate 5 (ApiAttempt.resp 500 (RespBody.notJson "err")))
      = (none, [2, 4, 6]) ∧
    ([2, 4, 6] : List Nat) ≠ [2, 4, 6, 8] := by
  decide

theorem api_waits_bounded : ∀ (attempts : List ApiAttempt) (k : Nat),
    ∃ t, (get_api_card_content k attempts).2 ++ t = List.drop k [2, 4, 6] := by
  intro attempts
  induction attempts with
  | nil => exact fun k => ⟨List.drop k [2, 4, 6], rfl⟩
  | cons a rest ih =>
      intro k
      unfold get_api_card_content
      by_cases hk : api_card_max_retries ≤ k
      · rw [if_pos hk]
        exact ⟨List.drop k [2, 4, 6], rfl⟩
      · rw [if_neg hk]
        have hk4 : k < 4 := by
          unfold api_card_max_retries at hk
          omega
        cases a with
        | netError =>
            dsimp only
            by_cases hr : k < api_card_max_retries - 1
            · rw [if_pos hr]
              obtain ⟨t, ht⟩ := ih (k + 1)
              refine ⟨t, ?_⟩
              dsimp only
              rw [List.cons_append, ht]
              unfold api_card_max_retries at hr
              interval_cases k <;> rfl
            · rw [if_neg hr]
              exact ⟨List.drop k [2, 4, 6], rfl⟩
        | resp status body =>
            dsimp only
            by_cases hs : (status == 200) = true
            · rw [if_pos hs]
              exact ⟨List.drop k [2, 4, 6], rfl⟩
            · rw [if_neg hs]
              by_cases hr : ((500 ≤ status || status == 408) &&
                  decide (k < api_card_max_retries - 1)) = true
              · rw [if_pos hr]
                obtain ⟨t, ht⟩ := ih (k + 1)
                refine ⟨t, ?_⟩
                dsimp only
                rw [List.cons_append, ht]
                have hk3 : k < 3 := by
                  have := (Bool.and_eq_true _ _).mp hr
                  have := of_decide_eq_true this.2
                  unfold api_card_max_retries at this
                  omega
                interval_cases k <;> rfl
              · rw [if_neg hr]
                exact ⟨List.drop k [2, 4, 6], rfl⟩

theorem api_all_failing_none : ∀ (attempts : List ApiAttempt) (k : Nat),
    (∀ a ∈ attempts, a.failing = true) →
    (get_api_card_content k attempts).1 = none := by
  intro attempts
  induction attempts with
  | nil => intro k _; rfl
  | cons a rest ih =>
      intro k hfail
      unfold get_api_card_content
      by_cases hk : api_card_max_retries ≤ k
      · rw [if_pos hk]
      · rw [if_neg hk]
        have hrest : ∀ a ∈ rest, a.failing = true :=
          fun a ha => hfail a (List.mem_cons_of_mem _ ha)
        cases a with
        | netError =>
            dsimp only
            by_cases hr : k < api_card_max_retries - 1
            · rw [if_pos hr]
              exact ih (k + 1) hrest
            · rw [if_neg hr]
        | resp status body =>
            dsimp only
            have hs : (status == 200) = false := by
              have := hfail _ (List.mem_cons_self _ _)
              unfold ApiAttempt.failing at this
              simpa using this
            rw [if_neg (by simp [hs])]
            by_cases hr : ((500 ≤ status || status == 408) &&
                decide (k < api_card_max_retries - 1)) = true
            · rw [if_pos hr]
              exact ih (k + 1) hrest
            · rw [if_neg hr]

/-- C9 (amended): on a 5xx or 408 response or a network error the call is
retried up to THREE times (four attempts in total), waiting `2·n` seconds
before the n-th retry — so the backoff sequence is always a head of
`[2, 4, 6]`; when every attempt fails the content is reported absent; a 200
response ends the call with `data`/`content`/`card` of a JSON-object body
(falling back to the object's string rendering when none of the three is a
truthy value), the string rendering of other JSON values, and the raw body
text when the body is not JSON. -/
theorem C9_api_retry_policy :
    (∀ attempts : List ApiAttempt,
      ∃ t, (get_api_card_content 0 attempts).2 ++ t = [2, 4, 6]) ∧
    (∀ (status : Nat) (body : RespBody) (rest : List ApiAttempt),
      500 ≤ status ∨ status = 408 →
      get_api_card_content 0 (ApiAttempt.resp status body :: rest) =
        ((get_api_card_content 1 rest).1, 2 :: (get_api_card_content 1 rest).2)) ∧
    (∀ rest : List ApiAttempt,
      get_api_card_content 0 (ApiAttempt.netError :: rest) =
        ((get_api_card_content 1 rest).1, 2 :: (get_api_card_content 1 rest).2)) ∧
    (∀ (body : RespBody) (rest : List ApiAttempt),
      get_api_card_content 0 (ApiAttempt.resp 200 body :: rest) =
        (some (extract_card_content body), [])) ∧
    (∀ attempts : List ApiAttempt, (∀ a ∈ attempts, a.failing = true) →
      (get_api_card_content 0 attempts).1 = none) ∧
    (∀ text : String, extract_card_content (RespBody.notJson text) = text) := by
  refine ⟨fun attempts => api_waits_bounded attempts 0, ?_, ?_, ?_,
    fun attempts h => api_all_failing_none attempts 0 h, fun text => rfl⟩
  · intro status body rest hst
    have hs : (status == 200) = false := by
      simp only [beq_eq_false_iff_ne, ne_eq]
      omega
    have hcond : ((500 ≤ status || status == 408) &&
        decide ((0 : Nat) < api_card_max_retries - 1)) = true := by
      rcases hst with h5 | h4
      · simp [h5, api_card_max_retries]
      · simp [h4, api_card_max_retries]
    conv_lhs => rw [get_api_card_content]
    rw [if_neg (by unfold api_card_max_retries; omega)]
    dsimp only
    rw [if_neg (by simp [hs]), if_pos hcond]
  · intro rest
    conv_lhs => rw [get_api_card_content]
    rw [if_neg (by unfold api_card_max_retries; omega)]
    dsimp only
    rw [if_pos (by unfold api_card_max_retries; omega)]
  · intro body rest
    conv_lhs => rw [get_api_card_content]
    rw [if_neg (by unfold api_card_max_retries; omega)]
    dsimp only
    rw [if_pos (show ((200 : Nat) == 200) = true by simp)]

/-! ## Claim C8 -/

/-- C8 as stated is false on the code: in the external-API reply path a
template whose placeholder cannot be resolved yields no reply at all (the
exception is swallowed by the surrounding `try` and `None` is returned), not
the raw template string. -/
theorem C8_counterexample :
    get_api_reply
        (some ⟨200, some ⟨"hi {foo}", [TemplateItem.lit "hi ", TemplateItem.badField]⟩⟩)
        ⟨"u1", "n1", "m1"⟩ = none ∧
    ¬(get_api_reply
        (some ⟨200, some ⟨"hi {foo}", [TemplateItem.lit "hi ", TemplateItem.badField]⟩⟩)
        ⟨"u1", "n1", "m1"⟩ = some "hi {foo}") := by
  decide

/-- C8 (amended): the keyword and default reply paths interpolate the
template with `{send_user_id}`/`{send_user_name}`/`{send_message}` and return
the raw template unchanged when interpolation fails; the external-API path,
whose interpolation sits inside the function-wide `try`, instead drops the
reply (returns nothing) when interpolation fails. -/
theorem C8_interpolation_fallback :
    (∀ (ctx : MsgCtx) (t : Template),
      pyFormat ctx t = none → formatOrRaw ctx t = t.raw) ∧
    (∀ (keywords : List KeywordRule) (ctx : MsgCtx) (item_id : Option String)
        (r₀ : KeywordRule),
      truthy item_id = true →
      keywords.find? (scoped_rule_matches item_id ctx.send_message) = some r₀ →
      get_keyword_reply keywords ctx item_id = some (formatOrRaw ctx r₀.reply)) ∧
    (∀ (keywords : List KeywordRule) (ctx : MsgCtx) (item_id : Option String)
        (r₀ : KeywordRule),
      (if truthy item_id then
        keywords.find? (scoped_rule_matches item_id ctx.send_message)
       else none) = none →
      keywords.find? (global_rule_matches ctx.send_message) = some r₀ →
      get_keyword_reply keywords ctx item_id = some (formatOrRaw ctx r₀.reply)) ∧
    (∀ (s : DefaultReplySettings) (ctx : MsgCtx),
      s.enabled = true → ¬(s.reply_content.raw = "") →
      get_default_reply (some s) ctx = some (formatOrRaw ctx s.reply_content)) ∧
    (∀ (ctx : MsgCtx) (t : Template),
      ¬(t.raw = "") → pyFormat ctx t = none →
      get_api_reply (some ⟨200, some t⟩) ctx = none) := by
  refine ⟨?_, ?_, ?_, ?_, ?_⟩
  · intro ctx t hfmt
    unfold formatOrRaw
    rw [hfmt]
    rfl
  · intro keywords ctx item_id r₀ hitem hfind
    unfold get_keyword_reply
    rw [if_pos hitem, hfind]
    rfl
  · intro keywords ctx item_id r₀ hscoped hfind
    unfold get_keyword_reply
    by_cases hit : truthy item_id = true
    · rw [if_pos hit] at hscoped
      simp [hit, hscoped, hfind]
    · simp [hit, hfind]
  · intro s ctx hen hraw
    unfold get_default_reply
    dsimp only
    rw [if_neg (by simp [hen]), if_neg (by simpa using hraw)]
  · intro ctx t hraw hfmt
    unfold get_api_reply
    dsimp only
    rw [if_pos (by simp), if_neg (by simpa using hraw)]
    exact hfmt

/-- Closed instance of `C8_interpolation_fallback`: a keyword rule whose
template fails interpolation still replies with the raw template. -/
theorem C8_witness :
    get_keyword_reply
        [⟨"hello", ⟨"hi {foo}", [TemplateItem.lit "hi ", TemplateItem.badField]⟩,
          some "77001"⟩]
        ⟨"u1", "n1", "Hello there"⟩ (some "77001")
      = some (formatOrRaw ⟨"u1", "n1", "Hello there"⟩
          ⟨"hi {foo}", [TemplateItem.lit "hi ", TemplateItem.badField]⟩) :=
  C8_interpolation_fallback.2.1
    [⟨"hello", ⟨"hi {foo}", [TemplateItem.lit "hi ", TemplateItem.badField]⟩,
      some "77001"⟩]
    ⟨"u1", "n1", "Hello there"⟩ (some "77001")
    ⟨"hello", ⟨"hi {foo}", [TemplateItem.lit "hi ", TemplateItem.badField]⟩,
      some "77001"⟩ (by decide) (by decide)

/-! ## Claim C6 -/

/-- For every frame reaching `handle_message` for an enabled account, the ack
attempt — a `code=200` frame echoing the inbound `mid` and `sid` and carrying
`app-key`, `ua`, `dt` exactly when present — comes first, before any
decryption, classification, state mutation or outbound reply; no further ack
is sent; and an ack send failure changes nothing in the rest. -/
theorem handle_message_ack_first (f : Bool) (h : FrameHeaders) (p : FramePayload)
    (gen : String) (api_reply : Option String) (keywords : List KeywordRule)
    (ai_enabled : Bool) (ai_result : Option String)
    (settings : Option DefaultReplySettings) :
    (handle_message_trace true f h p gen api_reply keywords ai_enabled
        ai_result settings =
      EngineAction.sendAck (build_ack h gen) (!f) ::
        (handle_message_trace true true h p gen api_reply keywords ai_enabled
          ai_result settings).tail) ∧
    (∀ a ∈ (handle_message_trace true true h p gen api_reply keywords
        ai_enabled ai_result settings).tail,
      ∀ (ack : AckFrame) (d : Bool), a ≠ EngineAction.sendAck ack d) ∧
    (build_ack h gen).code = 200 ∧
    (∀ m, h.mid = some m → (build_ack h gen).mid = m) ∧
    (∀ s, h.sid = some s → (build_ack h gen).sid = s) ∧
    (build_ack h gen).app_key = h.app_key ∧
    (build_ack h gen).ua = h.ua ∧
    (build_ack h gen).dt = h.dt := by
  refine ⟨rfl, ?_, rfl, fun m hm => by simp [build_ack, hm],
    fun s hs => by simp [build_ack, hs], rfl, rfl, rfl⟩
  intro a ha ack d
  unfold handle_message_trace at ha
  dsimp only at ha
  cases p with
  | notSync => simp at ha
  | syncNoData => simp at ha
  | syncPlainSystem =>
      rcases (by simpa using ha :
          a = EngineAction.decryptPayload ∨ a = EngineAction.classify) with
        hh | hh <;> subst hh <;> simp
  | syncUndecryptable =>
      have : a = EngineAction.decryptPayload := by simpa using ha
      subst this
      simp
  | syncChat ctx item_id is_trigger =>
      cases is_trigger with
      | true =>
          rcases (by simpa using ha :
              a = EngineAction.decryptPayload ∨ a = EngineAction.classify ∨
                a = EngineAction.mutateState) with
            hh | hh | hh <;> subst hh <;> simp
      | false =>
          have ha' : a ∈ [EngineAction.decryptPayload, EngineAction.classify] ++
              (match choose_reply api_reply keywords ai_enabled ai_result
                  settings ctx item_id with
               | some r => [EngineAction.mutateState, EngineAction.sendReply r.1]
               | none => []) := by simpa using ha
          rcases List.mem_append.mp ha' with hmem | hmem
          · rcases (by simpa using hmem :
                a = EngineAction.decryptPayload ∨ a = EngineAction.classify)
              with hh | hh <;> subst hh <;> simp
          · revert hmem
            cases choose_reply api_reply keywords ai_enabled ai_result
                settings ctx item_id with
            | none => intro hmem; simp at hmem
            | some r =>
                intro hmem
                rcases (by simpa using hmem :
                    a = EngineAction.mutateState ∨
                      a = EngineAction.sendReply r.1) with hh | hh <;>
                  subst hh <;> simp

/-- C6 as stated is false on the code: the receive loop feeds every frame to
`handle_heartbeat_response` before `handle_message`, so a frame with
top-level `code = 200` (the server's heartbeat ack) is classified and
mutates session state while no ack frame is ever sent for it. -/
theorem C6_counterexample :
    receive_loop_trace true false (some 200)
        ⟨some "m1", some "s1", none, none, none⟩ FramePayload.notSync "g"
        none [] false none none
      = [EngineAction.classify, EngineAction.mutateState] ∧
    (([EngineAction.classify, EngineAction.mutateState].all fun a =>
        match a with
        | EngineAction.sendAck _ _ => false
        | _ => true) = true) := by
  decide

/-- C6 (amended): every inbound frame is first offered to the heartbeat
handler — a frame whose top-level `code` equals 200 is consumed as a
heartbeat ack, classified and mutating the heartbeat ledger with no ack ever
sent; for every other frame, processed by `handle_message` for an enabled
account, a `code=200` ack echoing the frame's `mid` and `sid` (and carrying
`app-key`, `ua`, `dt` exactly when present) is sent before any decryption,
classification, state mutation or outbound reply, no further ack is sent,
and a failure to send the ack is ignored rather than aborting the frame's
processing. -/
theorem C6_ack_discipline (f : Bool) (top_code : Option Nat)
    (h : FrameHeaders) (p : FramePayload) (gen : String)
    (api_reply : Option String) (keywords : List KeywordRule)
    (ai_enabled : Bool) (ai_result : Option String)
    (settings : Option DefaultReplySettings) :
    (handle_heartbeat_response top_code = true →
      receive_loop_trace true f top_code h p gen api_reply keywords
          ai_enabled ai_result settings
        = [EngineAction.classify, EngineAction.mutateState] ∧
      ∀ a ∈ [EngineAction.classify, EngineAction.mutateState],
        ∀ (ack : AckFrame) (d : Bool), a ≠ EngineAction.sendAck ack d) ∧
    (handle_heartbeat_response top_code = false →
      (receive_loop_trace true f top_code h p gen api_reply keywords
          ai_enabled ai_result settings =
        EngineAction.sendAck (build_ack h gen) (!f) ::
          (receive_loop_trace true true top_code h p gen api_reply keywords
            ai_enabled ai_result settings).tail) ∧
      (∀ a ∈ (receive_loop_trace true true top_code h p gen api_reply
          keywords ai_enabled ai_result settings).tail,
        ∀ (ack : AckFrame) (d : Bool), a ≠ EngineAction.sendAck ack d) ∧
      (build_ack h gen).code = 200 ∧
      (∀ m, h.mid = some m → (build_ack h gen).mid = m) ∧
      (∀ s, h.sid = some s → (build_ack h gen).sid = s) ∧
      (build_ack h gen).app_key = h.app_key ∧
      (build_ack h gen).ua = h.ua ∧
      (build_ack h gen).dt = h.dt) := by
  constructor
  · intro hhb
    constructor
    · unfold receive_loop_trace
      rw [if_pos hhb]
    · intro a ha ack d
      rcases (by simpa using ha :
          a = EngineAction.classify ∨ a = EngineAction.mutateState) with
        hh | hh <;> subst hh <;> simp
  · intro hhb
    have hred : ∀ g : Bool,
        receive_loop_trace true g top_code h p gen api_reply keywords
            ai_enabled ai_result settings =
          handle_message_trace true g h p gen api_reply keywords ai_enabled
            ai_result settings := by
      intro g
      unfold receive_loop_trace
      rw [if_neg (by simp [hhb])]
    obtain ⟨h₁, h₂, h₃⟩ := handle_message_ack_first f h p gen api_reply
      keywords ai_enabled ai_result settings
    refine ⟨?_, ?_, h₃⟩
    · rw [hred f, hred true]
      exact h₁
    · rw [hred true]
      exact h₂

/-! ## Claim C2 -/

theorem find?_first_is_max {α : Type} (key : α → Nat) (p : α → Bool) :
    ∀ l : List α, List.Pairwise (fun a b => key b ≤ key a) l →
      ∀ r, l.find? p = some r → ∀ r' ∈ l, p r' = true → key r' ≤ key r := by
  intro l
  induction l with
  | nil => intro _ r hr; simp at hr
  | cons a t ih =>
      intro hpw r hr r' hr' hpr'
      rw [List.find?_cons] at hr
      cases hpa : p a with
      | true =>
          rw [hpa] at hr
          have : a = r := by simpa using hr
          subst this
          rcases List.mem_cons.mp hr' with hh | hh
          · subst hh; exact le_refl _
          · exact (List.pairwise_cons.mp hpw).1 r' hh
      | false =>
          rw [hpa] at hr
          rcases List.mem_cons.mp hr' with hh | hh
          · subst hh; rw [hpa] at hpr'; cases hpr'
          · exact ih (List.pairwise_cons.mp hpw).2 r (by simpa using hr) r' hh hpr'

theorem get_keyword_reply_scoped (keywords : List KeywordRule) (ctx : MsgCtx)
    (item_id : Option String) (r₀ : KeywordRule) (hitem : truthy item_id = true)
    (hfind : keywords.find? (scoped_rule_matches item_id ctx.send_message)
      = some r₀) :
    get_keyword_reply keywords ctx item_id = some (formatOrRaw ctx r₀.reply) := by
  unfold get_keyword_reply
  rw [if_pos hitem, hfind]
  rfl

theorem get_keyword_reply_global (keywords : List KeywordRule) (ctx : MsgCtx)
    (item_id : Option String) (r₀ : KeywordRule)
    (hscoped : keywords.find? (scoped_rule_matches item_id ctx.send_message)
      = none)
    (hfind : keywords.find? (global_rule_matches ctx.send_message) = some r₀) :
    get_keyword_reply keywords ctx item_id = some (formatOrRaw ctx r₀.reply) := by
  unfold get_keyword_reply
  by_cases hit : truthy item_id = true
  · rw [if_pos hit, hscoped]
    simp [hfind]
  · rw [if_neg hit]
    simp [hfind]

theorem get_keyword_reply_nomatch (keywords : List KeywordRule) (ctx : MsgCtx)
    (item_id : Option String)
    (hscoped : keywords.find? (scoped_rule_matches item_id ctx.send_message)
      = none)
    (hglobal : keywords.find? (global_rule_matches ctx.send_message) = none) :
    get_keyword_reply keywords ctx item_id = none := by
  unfold get_keyword_reply
  by_cases hit : truthy item_id = true
  · rw [if_pos hit, hscoped]
    simp [hglobal]
  · rw [if_neg hit]
    simp [hglobal]

/-- C2: with the external reply API disabled or failed, the reply is the
longest-keyword rule scoped to the current item whose keyword occurs
case-insensitively in the text; failing that, the longest-keyword global
rule; failing that, the AI reply when enabled and non-empty; failing that,
the default reply when enabled and non-empty; otherwise nothing.  The store's
rule list is assumed ordered by keyword length descending, as the spec's
store contract states. -/
theorem C2_reply_precedence (keywords : List KeywordRule) (ctx : MsgCtx)
    (item_id : Option String) (ai_enabled : Bool) (ai_result : Option String)
    (settings : Option DefaultReplySettings)
    (hsorted : List.Pairwise
      (fun a b => b.keyword.length ≤ a.keyword.length) keywords)
    (hitem : truthy item_id = true) :
    (∀ r ∈ keywords, scoped_rule_matches item_id ctx.send_message r = true →
      ∃ r₀, r₀ ∈ keywords ∧
        scoped_rule_matches item_id ctx.send_message r₀ = true ∧
        choose_reply none keywords ai_enabled ai_result settings ctx item_id
          = some (formatOrRaw ctx r₀.reply, ReplySource.keyword) ∧
        ∀ r' ∈ keywords,
          scoped_rule_matches item_id ctx.send_message r' = true →
          r'.keyword.length ≤ r₀.keyword.length) ∧
    ((∀ r ∈ keywords, scoped_rule_matches item_id ctx.send_message r = false) →
      ∀ r ∈ keywords, global_rule_matches ctx.send_message r = true →
      ∃ r₀, r₀ ∈ keywords ∧ global_rule_matches ctx.send_message r₀ = true ∧
        choose_reply none keywords ai_enabled ai_result settings ctx item_id
          = some (formatOrRaw ctx r₀.reply, ReplySource.keyword) ∧
        ∀ r' ∈ keywords, global_rule_matches ctx.send_message r' = true →
          r'.keyword.length ≤ r₀.keyword.length) ∧
    ((∀ r ∈ keywords, scoped_rule_matches item_id ctx.send_message r = false) →
      (∀ r ∈ keywords, global_rule_matches ctx.send_message r = false) →
      ai_enabled = true → ∀ s : String, ai_result = some s → ¬(s = "") →
      choose_reply none keywords ai_enabled ai_result settings ctx item_id
        = some (s, ReplySource.ai)) ∧
    ((∀ r ∈ keywords, scoped_rule_matches item_id ctx.send_message r = false) →
      (∀ r ∈ keywords, global_rule_matches ctx.send_message r = false) →
      get_ai_reply ai_enabled ai_result = none →
      ∀ ds : DefaultReplySettings, settings = some ds → ds.enabled = true →
      ¬(ds.reply_content.raw = "") →
      choose_reply none keywords ai_enabled ai_result settings ctx item_id
        = some (formatOrRaw ctx ds.reply_content, ReplySource.defaultReply)) ∧
    ((∀ r ∈ keywords, scoped_rule_matches item_id ctx.send_message r = false) →
      (∀ r ∈ keywords, global_rule_matches ctx.send_message r = false) →
      get_ai_reply ai_enabled ai_result = none →
      get_default_reply settings ctx = none →
      choose_reply none keywords ai_enabled ai_result settings ctx item_id
        = none) := by
  refine ⟨?_, ?_, ?_, ?_, ?_⟩
  · intro r hr hmatch
    have hsome : (keywords.find?
        (scoped_rule_matches item_id ctx.send_message)).isSome :=
      List.find?_isSome.mpr ⟨r, hr, hmatch⟩
    obtain ⟨r₀, hfind⟩ := Option.isSome_iff_exists.mp hsome
    refine ⟨r₀, List.mem_of_find?_eq_some hfind, List.find?_some hfind, ?_, ?_⟩
    · unfold choose_reply
      rw [get_keyword_reply_scoped keywords ctx item_id r₀ hitem hfind]
    · exact find?_first_is_max (fun r => r.keyword.length)
        (scoped_rule_matches item_id ctx.send_message) keywords hsorted r₀ hfind
  · intro hns r hr hmatch
    have hscoped : keywords.find?
        (scoped_rule_matches item_id ctx.send_message) = none :=
      List.find?_eq_none.mpr fun x hx => by simp [hns x hx]
    have hsome : (keywords.find?
        (global_rule_matches ctx.send_message)).isSome :=
      List.find?_isSome.mpr ⟨r, hr, hmatch⟩
    obtain ⟨r₀, hfind⟩ := Option.isSome_iff_exists.mp hsome
    refine ⟨r₀, List.mem_of_find?_eq_some hfind, List.find?_some hfind, ?_, ?_⟩
    · unfold choose_reply
      rw [get_keyword_reply_global keywords ctx item_id r₀ hscoped hfind]
    · exact find?_first_is_max (fun r => r.keyword.length)
        (global_rule_matches ctx.send_message) keywords hsorted r₀ hfind
  · intro hns hng hai s hs hne
    have hkw : get_keyword_reply keywords ctx item_id = none :=
      get_keyword_reply_nomatch keywords ctx item_id
        (List.find?_eq_none.mpr fun x hx => by simp [hns x hx])
        (List.find?_eq_none.mpr fun x hx => by simp [hng x hx])
    unfold choose_reply
    rw [hkw]
    unfold get_ai_reply
    rw [if_neg (by simp [hai]), hs]
    dsimp only
    rw [if_neg (by simpa using hne)]
  · intro hns hng hai ds hds hen hraw
    have hkw : get_keyword_reply keywords ctx item_id = none :=
      get_keyword_reply_nomatch keywords ctx item_id
        (List.find?_eq_none.mpr fun x hx => by simp [hns x hx])
        (List.find?_eq_none.mpr fun x hx => by simp [hng x hx])
    unfold choose_reply
    rw [hkw, hai, hds]
    unfold get_default_reply
    dsimp only
    rw [if_neg (by simp [hen]), if_neg (by simpa using hraw)]
  · intro hns hng hai hds
    have hkw : get_keyword_reply keywords ctx item_id = none :=
      get_keyword_reply_nomatch keywords ctx item_id
        (List.find?_eq_none.mpr fun x hx => by simp [hns x hx])
        (List.find?_eq_none.mpr fun x hx => by simp [hng x hx])
    unfold choose_reply
    rw [hkw, hai, hds]

/-- Closed instance of `C2_reply_precedence`: one scoped rule matching
case-insensitively selects that rule's reply. -/
theorem C2_witness :
    choose_reply none
        [⟨"hello", ⟨"hi", [TemplateItem.lit "hi"]⟩, some "77001"⟩]
        false none none ⟨"u1", "n1", "Hello there"⟩ (some "77001")
      = some ("hi", ReplySource.keyword) := by
  obtain ⟨r₀, hmem, hmatch, heq, hmax⟩ :=
    (C2_reply_precedence
        [⟨"hello", ⟨"hi", [TemplateItem.lit "hi"]⟩, some "77001"⟩]
        ⟨"u1", "n1", "Hello there"⟩ (some "77001") false none none
        (by decide) (by decide)).1
      ⟨"hello", ⟨"hi", [TemplateItem.lit "hi"]⟩, some "77001"⟩
      (by decide) (by decide)
  have hr : r₀ = ⟨"hello", ⟨"hi", [TemplateItem.lit "hi"]⟩, some "77001"⟩ := by
    simpa using hmem
  subst hr
  rw [heq]
  rfl

/-! ## Claim C3 -/

/-- The tier-1 predicate of the spec-exact delivery-rule query. -/
def spec_rule_pred (search_text spec_name spec_value : String)
    (r : DeliveryRule) : Bool :=
  pyContains r.keyword search_text && r.is_multi_spec &&
    r.spec_name == spec_name && r.spec_value == spec_value

theorem mem_rules_by_keyword_and_spec (db : List DeliveryRule)
    (search_text sn sv : String) (r : DeliveryRule) :
    r ∈ get_delivery_rules_by_keyword_and_spec db search_text sn sv ↔
      r ∈ db ∧ spec_rule_pred search_text sn sv r = true := by
  unfold get_delivery_rules_by_keyword_and_spec spec_rule_pred
  rw [(List.perm_insertionSort ruleOrder _).mem_iff, List.mem_filter]

theorem mem_rules_by_keyword (db : List DeliveryRule)
    (search_text : String) (r : DeliveryRule) :
    r ∈ get_delivery_rules_by_keyword db search_text ↔
      r ∈ db ∧ pyContains r.keyword search_text = true := by
  unfold get_delivery_rules_by_keyword
  rw [(List.perm_insertionSort ruleOrder _).mem_iff, List.mem_filter]

theorem sorted_head_max (l : List DeliveryRule) (hs : List.Sorted ruleOrder l)
    (r₀ : DeliveryRule) (hr : l.head? = some r₀) :
    ∀ r' ∈ l, r'.keyword.length ≤ r₀.keyword.length := by
  cases l with
  | nil => cases hr
  | cons a t =>
      have ha : a = r₀ := by simpa using hr
      subst ha
      intro r' hr'
      rcases List.mem_cons.mp hr' with hh | hh
      · subst hh; exact le_refl _
      · have := List.rel_of_sorted_cons hs r' hh
        unfold ruleOrder at this
        omega

/-- C3: when the order's `(spec_name, spec_value)` were obtained, the
spec-exact multi-spec query is tried first and its head (the longest-keyword
spec-matching rule) is applied whenever that tier is non-empty — so a
spec-matching rule wins over a generic one; only when that tier is empty, or
when no spec was obtainable, is the generic keyword query used, and its head
is the longest-keyword rule whose keyword is contained in the search text.
The two store queries are modelled from the spec's store contract. -/
theorem C3_delivery_tier_precedence (db : List DeliveryRule)
    (search_text sn sv : String) :
    (¬(sn = "") → ¬(sv = "") →
      ∀ r ∈ db, spec_rule_pred search_text sn sv r = true →
      ∃ r₀, select_delivery_rule db search_text sn sv = some r₀ ∧
        spec_rule_pred search_text sn sv r₀ = true ∧
        ∀ r' ∈ db, spec_rule_pred search_text sn sv r' = true →
          r'.keyword.length ≤ r₀.keyword.length) ∧
    (¬(sn = "") → ¬(sv = "") →
      (∀ r ∈ db, spec_rule_pred search_text sn sv r = false) →
      select_delivery_rule db search_text sn sv =
        (get_delivery_rules_by_keyword db search_text).head?) ∧
    (sn = "" ∨ sv = "" →
      select_delivery_rule db search_text sn sv =
        (get_delivery_rules_by_keyword db search_text).head?) ∧
    (∀ r₀, (get_delivery_rules_by_keyword db search_text).head? = some r₀ →
      pyContains r₀.keyword search_text = true ∧
      ∀ r' ∈ db, pyContains r'.keyword search_text = true →
        r'.keyword.length ≤ r₀.keyword.length) := by
  refine ⟨?_, ?_, ?_, ?_⟩
  · intro hsn hsv r hr hpred
    have hmem : r ∈ get_delivery_rules_by_keyword_and_spec db search_text sn sv :=
      (mem_rules_by_keyword_and_spec db search_text sn sv r).mpr ⟨hr, hpred⟩
    rcases hl : get_delivery_rules_by_keyword_and_spec db search_text sn sv with
      _ | ⟨r₀, tl⟩
    · rw [hl] at hmem; cases hmem
    · refine ⟨r₀, ?_, ?_, ?_⟩
      · unfold select_delivery_rule
        rw [if_pos (by simp [hsn, hsv]), hl]
        rfl
      · have : r₀ ∈ get_delivery_rules_by_keyword_and_spec db search_text sn sv := by
          rw [hl]; exact List.mem_cons_self _ _
        exact ((mem_rules_by_keyword_and_spec db search_text sn sv r₀).mp this).2
      · intro r' hr' hpred'
        have hmem' : r' ∈ get_delivery_rules_by_keyword_and_spec db search_text sn sv :=
          (mem_rules_by_keyword_and_spec db search_text sn sv r').mpr ⟨hr', hpred'⟩
        have hsorted : List.Sorted ruleOrder
            (get_delivery_rules_by_keyword_and_spec db search_text sn sv) :=
          List.sorted_insertionSort ruleOrder _
        refine sorted_head_max _ hsorted r₀ ?_ r' hmem'
        rw [hl]
        rfl
  · intro hsn hsv hnone
    have hnil : get_delivery_rules_by_keyword_and_spec db search_text sn sv = [] := by
      unfold get_delivery_rules_by_keyword_and_spec
      rw [show db.filter (fun r =>
          pyContains r.keyword search_text && r.is_multi_spec &&
            r.spec_name == sn && r.spec_value == sv) = [] from
        List.filter_eq_nil_iff.mpr fun a ha => by
          have := hnone a ha
          unfold spec_rule_pred at this
          simp [this]]
      rfl
    unfold select_delivery_rule
    rw [if_pos (by simp [hsn, hsv]), hnil]
    rfl
  · intro hor
    unfold select_delivery_rule
    rw [if_neg ?_]
    · rfl
    · rcases hor with hh | hh <;> simp [hh]
  · intro r₀ hr₀
    have hmem : r₀ ∈ get_delivery_rules_by_keyword db search_text := by
      rcases hl : get_delivery_rules_by_keyword db search_text with _ | ⟨a, tl⟩
      · rw [hl] at hr₀; cases hr₀
      · rw [hl] at hr₀
        have : a = r₀ := by simpa using hr₀
        subst this
        simp [hl]
    refine ⟨((mem_rules_by_keyword db search_text r₀).mp hmem).2, ?_⟩
    intro r' hr' hpred'
    exact sorted_head_max _ (List.sorted_insertionSort ruleOrder _) r₀ hr₀ r'
      ((mem_rules_by_keyword db search_text r').mpr ⟨hr', hpred'⟩)

/-- Closed instance of `C3_delivery_tier_precedence`: with the order's spec
obtained, the selected rule is a spec-matching one even though a
longer-keyword generic rule exists. -/
theorem C3_witness :
    ∃ r₀, select_delivery_rule
        [⟨1, "iPhone 15 Pro", false, "", ""⟩,
         ⟨2, "iPhone", true, "容量", "128G"⟩]
        "iPhone 15 Pro 全新" "容量" "128G" = some r₀ ∧
      spec_rule_pred "iPhone 15 Pro 全新" "容量" "128G" r₀ = true ∧
      ∀ r' ∈ [⟨1, "iPhone 15 Pro", false, "", ""⟩,
         (⟨2, "iPhone", true, "容量", "128G"⟩ : DeliveryRule)],
        spec_rule_pred "iPhone 15 Pro 全新" "容量" "128G" r' = true →
        r'.keyword.length ≤ r₀.keyword.length :=
  (C3_delivery_tier_precedence
      [⟨1, "iPhone 15 Pro", false, "", ""⟩,
       ⟨2, "iPhone", true, "容量", "128G"⟩]
      "iPhone 15 Pro 全新" "容量" "128G").1
    (by decide) (by decide)
    ⟨2, "iPhone", true, "容量", "128G"⟩ (by decide) (by decide)

end Xianyu
